import Mathlib

/-!
# Verification of the legal-case-management workflow engine

A shallow embedding of the case resolution and workflow orchestration engine:
the string similarity scorer and email classifier (`src/utils/helpers.js`),
the Notion-backed case store operations (`notionService.js`: `searchCases`,
`findCase`, `checkDuplicateCase`, `createCase`, `updateCase`, `addHearing`,
`closeCase`) and the workflow orchestrator (`workflowOrchestrator.js`:
`handleExistingCase`, `handleNewCase`, `createDraftFromUnknown`,
`resolveClientEmail`, `mapStatus`).

The external Notion store is modelled as an in-memory list of case records;
the calendar and email sinks are modelled as an effect trace; the AI summary
collaborator is a function parameter; `Math.random()` outcomes are modelled
as the dyadic rationals `k / 2 ^ 53`.  JavaScript string truthiness (empty
string is falsy) is modelled explicitly on `Option String`.  JavaScript
floating-point score arithmetic is modelled by exact rationals represented
as numerator/denominator pairs (`Score`); every value produced by the scorer
is exactly representable, so no rounding behaviour is lost.

All definitions are structurally recursive so that concrete runs of the
engine reduce inside the kernel.
-/

namespace LegalCase

/-! ## String primitives with JavaScript semantics -/

/-- JS truthiness of a nullable string: `null`/`undefined` and `""` are falsy. -/
def truthy : Option String → Bool
  | none => false
  | some s => s ≠ ""

/-- JS `a || b` on nullable strings. -/
def jsOr (a b : Option String) : Option String :=
  if truthy a then a else b

/-- ASCII lower-casing, `s.toLowerCase()`. -/
def lowerS (s : String) : String :=
  ⟨s.data.map Char.toLower⟩

/-- ASCII upper-casing, `s.toUpperCase()`. -/
def upperS (s : String) : String :=
  ⟨s.data.map Char.toUpper⟩

/-- `s.trim()`: strip whitespace from both ends. -/
def trimS (s : String) : String :=
  ⟨((s.data.dropWhile Char.isWhitespace).reverse.dropWhile Char.isWhitespace).reverse⟩

/-- `s.length` (code points; all inputs here are ASCII). -/
def lenS (s : String) : Nat :=
  s.data.length

/-- `s.startsWith(p)`. -/
def startsWithS (s p : String) : Bool :=
  p.data.isPrefixOf s.data

/-- List infix test (contiguous subsequence). -/
def listInfix : List Char → List Char → Bool
  | n, [] => n.isEmpty
  | n, h :: t => n.isPrefixOf (h :: t) || listInfix n t

/-- JS `haystack.includes(needle)` (substring containment; empty needle matches). -/
def strIncludes (haystack needle : String) : Bool :=
  listInfix needle.data haystack.data

/-- Case-insensitive substring containment, modelling the store's
case-insensitive text `contains` filters. -/
def icontains (haystack needle : String) : Bool :=
  strIncludes (lowerS haystack) (lowerS needle)

/-- State machine for `jsSplitWs`: `acc` is the current piece (reversed),
`inWs` is true directly after a whitespace character, so a whitespace run
emits a single boundary. -/
def splitWsSM : List Char → List Char → Bool → List (List Char)
  | [], acc, _ => [acc.reverse]
  | c :: cs, acc, inWs =>
    if c.isWhitespace then
      if inWs then splitWsSM cs acc true
      else acc.reverse :: splitWsSM cs [] true
    else splitWsSM cs (c :: acc) false

/-- JS `s.split(/\s+/)`: leading or trailing whitespace yields an empty piece. -/
def jsSplitWs (s : String) : List String :=
  (splitWsSM s.data [] false).map (fun l => (⟨l⟩ : String))

/-- State machine for `collapseWs`. -/
def collapseWsSM : List Char → Bool → List Char
  | [], _ => []
  | c :: cs, inWs =>
    if c.isWhitespace then
      if inWs then collapseWsSM cs true
      else ' ' :: collapseWsSM cs true
    else c :: collapseWsSM cs false

/-- JS `s.replace(/\s+/g, ' ')`: collapse each whitespace run to one space. -/
def collapseWs (s : String) : String :=
  ⟨collapseWsSM s.data false⟩

/-- JS `\w` word characters: ASCII letters, digits and underscore. -/
def isWordChar (c : Char) : Bool :=
  c.isAlpha || c.isDigit || c = '_'

/-- Split a character list into maximal runs of word / non-word characters
(the granularity at which the `\b`-anchored filler regex operates). -/
def charRunsAux : List Char → List Char → List (List Char)
  | [], [] => []
  | [], a :: as => [(a :: as).reverse]
  | c :: cs, [] => charRunsAux cs [c]
  | c :: cs, a :: as =>
    if isWordChar c == isWordChar a then charRunsAux cs (c :: a :: as)
    else (a :: as).reverse :: charRunsAux cs [c]

def charRuns (l : List Char) : List (List Char) :=
  charRunsAux l []

/-- The filler tokens removed whole by the similarity normalizer
(the `case|matter|vs|the` alternatives of the regex; `v\.?` is handled
separately below). -/
def fillerWords : List String := ["case", "matter", "vs", "the"]

/-- Process the runs of `charRuns`, deleting filler-word runs as the global
regex replace `/\b(case|matter|vs|v\.?|the)\b/gi` does.  A run `v` also
swallows a directly following `.` when a word character follows the dot
(the regex `v\.?` succeeds only if the trailing word boundary holds after
the optional dot; otherwise it backtracks to bare `v`). -/
def stripFillerRuns : List (List Char) → List Char
  | [] => []
  | r :: rest =>
    match r with
    | [] => stripFillerRuns rest
    | c :: _ =>
      if isWordChar c then
        let w : String := ⟨r.map Char.toLower⟩
        if w ∈ fillerWords then stripFillerRuns rest
        else if w = "v" then
          match rest with
          | [] => []
          | sep :: rest2 =>
            match sep with
            | ['.'] =>
              if rest2.isEmpty then '.' :: stripFillerRuns rest2
              else stripFillerRuns rest2
            | _ => sep ++ stripFillerRuns rest2
        else r ++ stripFillerRuns rest
      else r ++ stripFillerRuns rest

/-- `normalize` inside `calculateSimilarity`:
`s.replace(/\s+/g, ' ').replace(/\b(case|matter|vs|v\.?|the)\b/gi, '').trim()`. -/
def normalizeName (s : String) : String :=
  trimS ⟨stripFillerRuns (charRuns (collapseWs s).data)⟩

/-- Words of length > 1 (the "significant words" tokenization used
throughout the matcher). -/
def significantWords (s : String) : List String :=
  (jsSplitWs s).filter (fun w => lenS w > 1)

/-! ## Exact score arithmetic

JavaScript computes match scores with floating-point doubles; every score
built by this engine is a small exact rational, represented here as a
numerator/denominator pair with positive denominator. -/

structure Score where
  num : Nat
  den : Nat
deriving DecidableEq, Repr

/-- `a ≤ b` on scores by cross multiplication (denominators positive). -/
def Score.le (a b : Score) : Bool :=
  a.num * b.den ≤ b.num * a.den

/-- Exact score addition. -/
def Score.add (a b : Score) : Score :=
  ⟨a.num * b.den + b.num * a.den, a.den * b.den⟩

/-- Truncated score subtraction (`a - b`, and `0` when `b ≥ a`): the only
use is the sorted-gap test, where the minuend is the larger score. -/
def Score.sub (a b : Score) : Score :=
  ⟨a.num * b.den - b.num * a.den, a.den * b.den⟩

/-- `Math.min` of two scores. -/
def Score.min (a b : Score) : Score :=
  if Score.le a b then a else b

/-- `calculateSimilarity` from `src/utils/helpers.js`: token-overlap string
similarity in `[0, 1]`. -/
def calculateSimilarity (str1 str2 : String) : Score :=
  if str1 = "" ∨ str2 = "" then ⟨0, 1⟩
  else
    let s1 := trimS (lowerS str1)
    let s2 := trimS (lowerS str2)
    if s1 = s2 then ⟨1, 1⟩
    else
      let n1 := normalizeName s1
      let n2 := normalizeName s2
      if n1 = n2 then ⟨95, 100⟩
      else if strIncludes n1 n2 || strIncludes n2 n1 then ⟨85, 100⟩
      else
        let words1 := significantWords n1
        let words2 := significantWords n2
        if words1 = [] ∨ words2 = [] then ⟨0, 1⟩
        else
          let matching := words1.filter (fun w => w ∈ words2)
          -- avgRatio = (matching/|words1| + matching/|words2|) / 2
          let avg : Score :=
            ⟨matching.length * words2.length + matching.length * words1.length,
             2 * (words1.length * words2.length)⟩
          if matching.length = words1.length ∧ words1.length ≥ 2 then
            Score.min ⟨9, 10⟩ (Score.add avg ⟨1, 5⟩)
          else avg

example : calculateSimilarity "Amit Kumar" "amit kumar" = ⟨1, 1⟩ := by decide
example : calculateSimilarity "unknown" "unknown case: zed" = ⟨85, 100⟩ := by decide
example : calculateSimilarity "the case of Amit" "amit" = ⟨85, 100⟩ := by decide
example : jsSplitWs " a  b " = ["", "a", "b", ""] := by decide
example : significantWords "Priya Sharma" = ["Priya", "Sharma"] := by decide
example : Score.le ⟨85, 100⟩ (calculateSimilarity "Amit Kumar Property" "Amit Kumar Estate") = false := by decide

/-! ## Email classification (`isRealEmail`, `src/utils/helpers.js`) -/

/-- JS `s.split('@')`-style splitter. -/
def splitOnCharAux (sep : Char) : List Char → List Char → List (List Char)
  | [], acc => [acc.reverse]
  | c :: cs, acc =>
    if c = sep then acc.reverse :: splitOnCharAux sep cs []
    else splitOnCharAux sep cs (c :: acc)

def splitOnChar (sep : Char) (s : String) : List String :=
  (splitOnCharAux sep s.data []).map (fun l => (⟨l⟩ : String))

/-- Deny list of placeholder domains. -/
def fakeDomains : List String :=
  ["example.com", "example.org", "example.net",
   "test.com", "test.org", "test.net",
   "fake.com", "fake.org",
   "dummy.com", "dummy.org",
   "sample.com", "sample.org",
   "placeholder.com", "placeholder.org",
   "mailinator.com", "tempmail.com",
   "localhost", "localhost.com",
   "abc.com", "xyz.com", "aaa.com",
   "email.com", "mail.com"]

/-- Deny list of placeholder local parts. -/
def fakeLocalParts : List String :=
  ["test", "demo", "fake", "dummy", "sample", "placeholder",
   "user", "admin", "info", "contact", "noreply", "no-reply",
   "asdf", "qwerty", "abcd", "xyz", "abc", "aaa", "bbb"]

/-- The regex `/^[a-z]{1,3}@/`: the string opens with one to three lowercase
letters directly followed by `@`. -/
def shortLocalPrefix : List Char → Bool
  | a :: '@' :: _ => a.isLower
  | a :: b :: '@' :: _ => a.isLower && b.isLower
  | a :: b :: c :: '@' :: _ => a.isLower && b.isLower && c.isLower
  | _ => false

/-- `isRealEmail` from `src/utils/helpers.js`: whether an address is
considered deliverable rather than dummy/test data. -/
def isRealEmail (email : String) : Bool :=
  if email = "" then false
  else
    let e := lowerS (trimS email)
    if !(strIncludes e "@" && strIncludes e ".") then false
    else
      match splitOnChar '@' e with
      | [localPart, domain] =>
        if localPart = "" || domain = "" then false
        else if localPart ∈ fakeLocalParts ∨ domain ∈ fakeDomains then
          false
        else if shortLocalPrefix e.data then false
        else true
      | _ => false

example : isRealEmail "john.smith@gmail.com" = true := by decide
example : isRealEmail "test@example.com" = false := by decide
example : isRealEmail "a@b.com" = false := by decide
example : isRealEmail "rahul@lawfirm.in" = true := by decide
example : isRealEmail "ab1@lawfirm.in" = true := by decide

/-! ## Case number generation (`generateCaseNumber`, `src/utils/helpers.js`)

`Math.random().toString(36).substring(2, 7).toUpperCase()`.  A `Math.random`
outcome is a dyadic rational `k / 2 ^ 53` with `k < 2 ^ 53`; its base-36
expansion terminates within 27 fractional digits because
`2 ^ 53 ∣ 36 ^ 27 = 2 ^ 54 * 3 ^ 54`, and `toString(36)` prints exactly the
significant fractional digits (`"0."` followed by the expansion with
trailing zeros removed, or `"0"` for zero), so `substring(2, 7)` is the
first five — or fewer, when the expansion is shorter — fractional digits. -/

/-- Base-36 digit character, lowercase as produced by `toString(36)`. -/
def base36Char (d : Nat) : Char :=
  if d < 10 then Char.ofNat (48 + d) else Char.ofNat (87 + d)

/-- The significant base-36 fractional digits of `k / 2 ^ 53`, most
significant first: the 27-digit expansion `k * 2 * 3 ^ 54 / 36 ^ 27` with
trailing zeros removed. -/
def randFracDigits (k : Nat) : List Nat :=
  let N := k * 2 * 3 ^ 54
  let digits := (List.range 27).map (fun i => N / 36 ^ (26 - i) % 36)
  (digits.reverse.dropWhile (· == 0)).reverse

/-- `Math.random().toString(36).substring(2, 7).toUpperCase()` for the
outcome `k / 2 ^ 53`. -/
def mathRandomBase36Suffix (k : Nat) : String :=
  ⟨((randFracDigits k).take 5).map (fun d => (base36Char d).toUpper)⟩

/-- `generateCaseNumber` from `src/utils/helpers.js`; `year` is
`new Date().getFullYear()` and `k` the `Math.random` outcome. -/
def generateCaseNumber (year k : Nat) : String :=
  "CASE-" ++ Nat.repr year ++ "-" ++ mathRandomBase36Suffix k

example : generateCaseNumber 2025 (2 ^ 52) = "CASE-2025-I" := by decide
example : generateCaseNumber 2025 1 = "CASE-2025-00000" := by decide

/-- `[A-Z0-9]`. -/
def isUpperAlnum (c : Char) : Bool :=
  c.isUpper || c.isDigit

/-- The anchored pattern `CASE-\d{4}-[A-Z0-9]{5}` from the specification. -/
def matchesCaseNumberPattern (s : String) : Bool :=
  let cs := s.data
  decide (cs.length = 15) && "CASE-".data.isPrefixOf cs &&
    ((cs.drop 5).take 4).all Char.isDigit &&
    decide ((cs.drop 9).take 1 = ['-']) &&
    (cs.drop 10).all isUpperAlnum

/-- The relaxed pattern `CASE-\d{4}-[A-Z0-9]{0,5}`: as above but the random
suffix may be shorter than five characters. -/
def matchesCaseNumberPatternUpTo5 (s : String) : Bool :=
  let cs := s.data
  decide (10 ≤ cs.length ∧ cs.length ≤ 15) && "CASE-".data.isPrefixOf cs &&
    ((cs.drop 5).take 4).all Char.isDigit &&
    decide ((cs.drop 9).take 1 = ['-']) &&
    (cs.drop 10).all isUpperAlnum

example : matchesCaseNumberPattern "CASE-2025-AB12C" = true := by decide
example : matchesCaseNumberPattern "CASE-2025-I" = false := by decide
example : matchesCaseNumberPatternUpTo5 "CASE-2025-I" = true := by decide
example : matchesCaseNumberPatternUpTo5 "CASE-2025-" = true := by decide

/-! ## Data model: case records and the store -/

structure CaseRecord where
  id : Nat
  case_name : Option String := none
  case_number : Option String := none
  status : Option String := none
  client_name : Option String := none
  client_email : Option String := none
  junior_name : Option String := none
  junior_email : Option String := none
  summary : Option String := none
  documents_needed : List String := []
  hearing_count : Nat := 0
  next_hearing : Option String := none
  client_welcome_sent : Bool := false
  assigned_to : Option String := none
  created_by : Option String := none
  latest_outcome : Option String := none
deriving DecidableEq, Repr, Inhabited

/-- One row of a case's hearing-history table. -/
structure Hearing where
  case_id : Nat
  hearing_number : Nat
  date : String
  description : String
  outcome : String
  next_steps : String
  documents : String
  court : String
deriving DecidableEq, Repr

/-- The Notion store: the case database, the per-case hearing tables, the
appended page history blocks, and the id source for created pages. -/
structure Store where
  cases : List CaseRecord := []
  hearings : List Hearing := []
  history : List (Nat × String) := []
  nextId : Nat := 1
deriving DecidableEq, Repr

/-- `getCaseById` (page retrieval). -/
def Store.getCaseById (st : Store) (id : Nat) : Option CaseRecord :=
  st.cases.find? (fun c => c.id == id)

/-- Deduplicate search results by id, keeping the first occurrence
(`filter((item, index, self) => index === self.findIndex(...))`). -/
def dedupById (l : List CaseRecord) : List CaseRecord :=
  l.foldl (fun acc c => if acc.any (fun d => d.id == c.id) then acc else acc ++ [c]) []

/-- `NotionService.searchCases`: the union of the four store queries —
case-name contains, case-number contains, client-name contains, and the
first-keyword fallback — deduplicated by id.  The store's `contains` text
filter is the case-insensitive substring match specified at the collaborator
boundary. -/
def searchCases (st : Store) (query : String) : List CaseRecord :=
  let keywords := (jsSplitWs (lowerS query)).filter (fun w => lenS w > 2)
  let nameResults := st.cases.filter (fun c => icontains (c.case_name.getD "") query)
  let numberResults := st.cases.filter (fun c => icontains (c.case_number.getD "") query)
  let clientResults := st.cases.filter (fun c => icontains (c.client_name.getD "") query)
  let keywordResults :=
    match keywords with
    | kw :: _ =>
      if lenS kw > 3 then
        st.cases.filter (fun c =>
          icontains (c.case_name.getD "") kw || icontains (c.client_name.getD "") kw)
      else []
    | [] => []
  dedupById (nameResults ++ numberResults ++ clientResults ++ keywordResults)

/-- The candidate triple carried by a `DuplicateCaseError` raised for
clarification. -/
structure MatchInfo where
  id : Nat
  case_name : Option String
  case_number : Option String
deriving DecidableEq, Repr

/-- Outcome of `NotionService.findCase`: a resolved case, a
`CaseNotFoundError`, or a `DuplicateCaseError` carrying the candidates. -/
inductive FindOutcome where
  | found (c : CaseRecord)
  | notFound (key : String)
  | needsClarification (candidates : List MatchInfo)
deriving DecidableEq, Repr

/-- The word-matching test used by the matcher: a lookup word matches a
target word when either contains the other. -/
def wordsMatching (searchWords targetWords : List String) : List String :=
  searchWords.filter (fun sw =>
    targetWords.any (fun tw => strIncludes tw sw || strIncludes sw tw))

/-- The per-candidate disambiguation score of `findCase`'s multi-candidate
branch. -/
def scoreCandidate (lookupKey : String) (searchWords : List String)
    (r : CaseRecord) : Score :=
  let caseName := lowerS (r.case_name.getD "")
  let clientName := lowerS (r.client_name.getD "")
  let caseNumber := upperS (r.case_number.getD "")
  if strIncludes (upperS lookupKey) caseNumber && decide (lenS caseNumber > 5) then
    ⟨1, 1⟩
  else
    let allTargetWords := jsSplitWs caseName ++ jsSplitWs clientName
    let matching := wordsMatching searchWords allTargetWords
    if matching.length = searchWords.length ∧ searchWords.length ≥ 2 then ⟨95, 100⟩
    else if searchWords.length > 0 then ⟨matching.length * 7, searchWords.length * 10⟩
    else ⟨0, 1⟩

/-- Stable insertion into a descending-by-score list: ties keep the earlier
element first, matching the stable JS `sort((a, b) => b.similarity - a.similarity)`. -/
def insertByScoreDesc (x : CaseRecord × Score) :
    List (CaseRecord × Score) → List (CaseRecord × Score)
  | [] => [x]
  | y :: ys => if Score.le x.2 y.2 then y :: insertByScoreDesc x ys else x :: y :: ys

def sortByScoreDesc (l : List (CaseRecord × Score)) : List (CaseRecord × Score) :=
  l.foldl (fun acc x => insertByScoreDesc x acc) []

/-- `NotionService.findCase`: search, then resolve zero / one / many
candidates per the disambiguation rules. -/
def findCase (st : Store) (lookupKey : String) : FindOutcome :=
  let results := searchCases st lookupKey
  match results with
  | [] => .notFound lookupKey
  | [singleResult] =>
    let searchWords := significantWords (trimS (lowerS lookupKey))
    let caseName := lowerS (singleResult.case_name.getD "")
    let clientName := lowerS (singleResult.client_name.getD "")
    let caseNumber := upperS (singleResult.case_number.getD "")
    if strIncludes (upperS lookupKey) caseNumber && decide (lenS caseNumber > 5) then
      .found singleResult
    else
      let allTargetWords := jsSplitWs caseName ++ jsSplitWs clientName
      let matching := wordsMatching searchWords allTargetWords
      if searchWords.length ≥ 2 ∧ matching.length = searchWords.length then
        .found singleResult
      else if searchWords.length ≥ 2 ∧ matching.length < searchWords.length then
        .notFound lookupKey
      else .found singleResult
  | r1 :: r2 :: rest =>
    let searchWords := significantWords (trimS (lowerS lookupKey))
    let scored := (r1 :: r2 :: rest).map (fun r => (r, scoreCandidate lookupKey searchWords r))
    match sortByScoreDesc scored with
    | best :: second :: _ =>
      if Score.le ⟨9, 10⟩ best.2 ∨
          (Score.le ⟨7, 10⟩ best.2 ∧ Score.le ⟨1, 5⟩ (Score.sub best.2 second.2)) then
        .found best.1
      else
        .needsClarification ((r1 :: r2 :: rest).map (fun r => ⟨r.id, r.case_name, r.case_number⟩))
    | _ => .notFound lookupKey

/-- The per-result duplicate test of `checkDuplicateCase`: skip "Unknown
Case" placeholders, then flag exact client-name match, client-name contained
in the existing case name, exact case-name match, or case-name similarity
at least 0.85. -/
def dupPred (client_name case_name : Option String) (existing : CaseRecord) : Bool :=
  let existingClientName := trimS (lowerS (existing.client_name.getD ""))
  let existingCaseName := trimS (lowerS (existing.case_name.getD ""))
  let newClientName := trimS (lowerS (client_name.getD ""))
  let newCaseName := trimS (lowerS (case_name.getD ""))
  !(startsWithS existingCaseName "unknown case") &&
    ((newClientName != "" && existingClientName == newClientName) ||
     (newClientName != "" && strIncludes existingCaseName newClientName) ||
     (newCaseName != "" && existingCaseName == newCaseName) ||
     Score.le ⟨85, 100⟩ (calculateSimilarity existingCaseName newCaseName))

/-- `NotionService.checkDuplicateCase`: only the `client_name` and
`case_name` attributes of the proposed case are consulted. -/
def checkDuplicateCase (st : Store) (client_name case_name : Option String) :
    Option CaseRecord :=
  if !(truthy client_name) && !(truthy case_name) then none
  else
    let searchKey : Option String :=
      if truthy client_name then client_name
      else
        match case_name with
        | some cn =>
          some (String.intercalate " " (((jsSplitWs cn).filter (fun w => lenS w > 2)).take 2))
        | none => none
    match searchKey with
    | none => none
    | some key =>
      if lenS key < 3 then none
      else (searchCases st key).find? (dupPred client_name case_name)

/-! ## Store mutation: `updateCase`, `addHearing`, `closeCase`, history -/

/-- The sparse `updates` object handed to `NotionService.updateCase`.  An
`Option` field is `some` exactly when the corresponding key is present;
`junior_assigned` records that the junior keys were added (possibly with
null values), which counts towards `Object.keys(updates).length`. -/
structure UpdatePatch where
  status : Option String := none
  next_hearing_date : Option String := none
  documents_needed : List String := []
  client_email : Option String := none
  client_name : Option String := none
  client_phone : Option String := none
  case_summary : Option String := none
  latest_outcome : Option String := none
  case_number : Option String := none
  junior_assigned : Bool := false
  junior_name : Option String := none
  junior_email : Option String := none
  increment_hearing : Bool := false
  client_welcome_sent : Option Bool := none
  outcome : Option String := none
deriving DecidableEq, Repr

/-- Best-effort history append (`addHistoryEntry`; failures swallowed,
timestamps omitted from the model). -/
def Store.addHistoryNote (st : Store) (id : Nat) (entry : String) : Store :=
  { st with history := st.history ++ [(id, entry)] }

/-- The per-record effect of `NotionService.updateCase`'s property map:
only status, client info, summary, next hearing, documents, hearing-count
increment, latest outcome and the welcome flag are ever written — in
particular no property handler exists for `case_number`, `junior_name`,
`junior_email` or `client_phone`, so those patch fields are dropped. -/
def applyPatchRecord (u : UpdatePatch) (c : CaseRecord) : CaseRecord :=
  { c with
    status := if truthy u.status then u.status else c.status
    client_name := if truthy u.client_name then u.client_name else c.client_name
    client_email := if truthy u.client_email then u.client_email else c.client_email
    summary := if truthy u.case_summary then u.case_summary else c.summary
    next_hearing := if truthy u.next_hearing_date then u.next_hearing_date else c.next_hearing
    documents_needed := if u.documents_needed.length > 0 then u.documents_needed else c.documents_needed
    hearing_count := if u.increment_hearing then c.hearing_count + 1 else c.hearing_count
    latest_outcome := if truthy u.latest_outcome then u.latest_outcome else c.latest_outcome
    client_welcome_sent := u.client_welcome_sent.getD c.client_welcome_sent }

/-- `NotionService.updateCase` (the update of an existing page plus the
best-effort outcome history append). -/
def Store.updateCase (st : Store) (pageId : Nat) (u : UpdatePatch) : Store :=
  let st1 := { st with cases := st.cases.map (fun c => if c.id == pageId then applyPatchRecord u c else c) }
  if truthy u.outcome then st1.addHistoryNote pageId (u.outcome.getD "") else st1

/-- Input row for `NotionService.addHearing`. -/
structure HearingData where
  date : Option String := none
  description : Option String := none
  outcome : Option String := none
  next_steps : Option String := none
  documents : Option String := none
  court : Option String := none
  next_hearing_date : Option String := none
deriving DecidableEq, Repr

/-- `NotionService.addHearing`: appends the hearing-table row, then updates
the main case (hearing-count increment, latest outcome, next hearing) and
appends a history note.  Returns the new store and the hearing number. -/
def Store.addHearing (st : Store) (casePageId : Nat) (h : HearingData) (today : String) :
    Store × Nat :=
  let currentCount := ((st.getCaseById casePageId).map (fun c => c.hearing_count)).getD 0
  let hearingNumber := currentCount + 1
  let hearingDate := (jsOr h.date (some today)).getD today
  let row : Hearing :=
    { case_id := casePageId, hearing_number := hearingNumber, date := hearingDate,
      description := h.description.getD "", outcome := h.outcome.getD "",
      next_steps := h.next_steps.getD "", documents := h.documents.getD "",
      court := h.court.getD "" }
  let st1 := { st with hearings := st.hearings ++ [row] }
  let st2 := st1.updateCase casePageId
    { increment_hearing := true,
      latest_outcome := some ((jsOr h.outcome (some ("Hearing " ++ Nat.repr hearingNumber ++ " completed"))).getD ""),
      next_hearing_date := h.next_hearing_date }
  let st3 := st2.addHistoryNote casePageId
    ("📋 Hearing " ++ Nat.repr hearingNumber ++ ": " ++ (jsOr h.outcome (some "Completed")).getD "")
  (st3, hearingNumber)

/-- `NotionService.closeCase`. -/
def Store.closeCase (st : Store) (pageId : Nat) : Store :=
  (st.updateCase pageId { status := some "Closed" }).addHistoryNote pageId "✅ Case closed/finalized"

/-! ## Store mutation: `createCase` -/

/-- The workflow's transient extracted-case payload. -/
structure CasePayload where
  action_type : Option String := none
  lookup_key : Option String := none
  case_name : Option String := none
  case_number : Option String := none
  client_name : Option String := none
  client_email : Option String := none
  client_phone : Option String := none
  junior_name : Option String := none
  junior_email : Option String := none
  outcome : Option String := none
  status : Option String := none
  next_hearing_date : Option String := none
  next_hearing_time : Option String := none
  documents_needed : List String := []
  assign_to_junior : Bool := false
  missing_fields : List String := []
  raw_notes : Option String := none
  case_summary : Option String := none
deriving DecidableEq, Repr

/-- The actor (user) context, including the `DEMO_USER_EMAIL` environment
fallback read by `resolveClientEmail`. -/
structure UserCtx where
  id : Nat := 0
  role : String := "SENIOR"
  name : String := "User"
  email : Option String := none
  junior_name : Option String := none
  junior_email : Option String := none
  auto_assign_to_junior : Bool := false
  demo_user_email : Option String := none
deriving DecidableEq, Repr

inductive CreateError where
  | alreadyExists (existing : CaseRecord)
deriving DecidableEq, Repr

/-- The object returned by `NotionService.createCase`. -/
structure CreatedInfo where
  id : Nat
  case_number : String
  case_name : Option String
  status : String
  is_draft : Bool
  missing_fields : List String
deriving DecidableEq, Repr

/-- `NotionService.createCase`: duplicate check, then page creation.
`year` and `k` feed `generateCaseNumber` when the payload carries none. -/
def createCase (st : Store) (p : CasePayload) (user : UserCtx) (year k : Nat) :
    Except CreateError (CreatedInfo × Store) :=
  match checkDuplicateCase st p.client_name p.case_name with
  | some existing => .error (.alreadyExists existing)
  | none =>
    let caseNumber := (jsOr p.case_number (some (generateCaseNumber year k))).getD ""
    let isDraft := p.missing_fields.length > 0
    let status := if isDraft then "Draft" else "Active"
    let id := st.nextId
    let record : CaseRecord :=
      { id := id
        case_name := some ((jsOr p.case_name (some "Untitled Case")).getD "")
        case_number := some caseNumber
        status := some status
        created_by := some user.name
        hearing_count := 0
        client_welcome_sent := false
        client_name := if truthy p.client_name then p.client_name else none
        client_email := if truthy p.client_email then p.client_email else none
        summary := if truthy p.case_summary then p.case_summary else none
        junior_name :=
          if user.role == "SENIOR" && p.assign_to_junior && truthy (jsOr p.junior_name user.junior_name)
          then jsOr p.junior_name user.junior_name else none
        junior_email :=
          if user.role == "SENIOR" && p.assign_to_junior && truthy (jsOr p.junior_email user.junior_email)
          then jsOr p.junior_email user.junior_email else none
        documents_needed := if p.documents_needed.length > 0 then p.documents_needed else []
        next_hearing := if truthy p.next_hearing_date then p.next_hearing_date else none
        assigned_to := some (if p.assign_to_junior && truthy user.junior_name
                             then user.junior_name.getD "" else user.name) }
    let st1 := { st with cases := st.cases ++ [record], nextId := st.nextId + 1 }
    let st2 := st1.addHistoryNote id ("Case created by " ++ user.name)
    let st3 :=
      if isDraft && decide (p.missing_fields.length > 0) then
        st2.addHistoryNote id ("⚠️ Missing information: " ++ String.intercalate ", " p.missing_fields)
      else st2
    .ok ({ id := id, case_number := caseNumber, case_name := p.case_name,
           status := status, is_draft := isDraft, missing_fields := p.missing_fields }, st3)

/-! ## Orchestrator: email resolution, status mapping, document requests -/

/-- `WorkflowOrchestrator.mapStatus`. -/
def mapStatus (status : String) : String :=
  if status == "CONTINUING" then "Continuing"
  else if status == "FINALIZED" then "Finalized"
  else if status == "DRAFT" then "Draft"
  else if status == "ACTIVE" then "Active"
  else "Active"

/-- The first `resolveClientEmail` definition (lines 573–608 of
`workflowOrchestrator.js`), shadowed by the later one under JS class
semantics; its logging truncates addresses but its returned value follows
the same three branches. -/
def resolveClientEmailFirst (user : UserCtx) (email : Option String) : Option String :=
  let defaultEmail := jsOr user.email user.demo_user_email
  match email with
  | none => if truthy defaultEmail then defaultEmail else none
  | some s =>
    if s = "" then (if truthy defaultEmail then defaultEmail else none)
    else if isRealEmail s then some s
    else if truthy defaultEmail then defaultEmail else none

/-- The second, effective `resolveClientEmail` definition (lines 634–670):
absent or non-real candidate falls back to the actor's email (or the demo
environment address), a real candidate is used as-is. -/
def resolveClientEmail (user : UserCtx) (caseEmail : Option String) : Option String :=
  let defaultEmail := jsOr user.email user.demo_user_email
  match caseEmail with
  | none => if truthy defaultEmail then defaultEmail else none
  | some s =>
    if s = "" then (if truthy defaultEmail then defaultEmail else none)
    else if isRealEmail s then some s
    else if truthy defaultEmail then defaultEmail else none

/-- The calendar and email sink calls the orchestrator can make; the
per-run effect trace lists them in call order. -/
inductive Effect where
  | juniorAssignmentEmail
  | clientUpdateEmail
  | clientHearingReport (hearingNumber : Nat) (recipient : String)
  | documentRequestToClient (recipient : String)
  | documentRequestToJunior
  | calendarHearingEvent (date : String)
  | calendarDocumentReminder
deriving DecidableEq, Repr

/-- The fields of the two objects consulted by `handleDocumentRequest`. -/
structure DocReqSource where
  case_name : Option String := none
  case_number : Option String := none
  client_name : Option String := none
  client_email : Option String := none
deriving DecidableEq, Repr

def payloadDocSource (p : CasePayload) : DocReqSource :=
  { case_name := p.case_name, case_number := p.case_number,
    client_name := p.client_name, client_email := p.client_email }

def recordDocSource (c : CaseRecord) : DocReqSource :=
  { case_name := c.case_name, case_number := c.case_number,
    client_name := c.client_name, client_email := c.client_email }

/-- `WorkflowOrchestrator.handleDocumentRequest`: document reminder, client
request when an address is known, junior follow-up for seniors. -/
def handleDocumentRequest (a b : DocReqSource) (documents : List String) (user : UserCtx) :
    List Effect :=
  if documents.length = 0 then []
  else
    let client_email := jsOr a.client_email b.client_email
    [Effect.calendarDocumentReminder] ++
    (if truthy client_email then [Effect.documentRequestToClient (client_email.getD "")] else []) ++
    (if user.role == "SENIOR" && truthy user.junior_email then [Effect.documentRequestToJunior] else [])

/-! ## Orchestrator: results and the two branches -/

/-- The per-payload result object assembled by the orchestrator branches. -/
structure CaseResult where
  status : String
  case_name : Option String := none
  case_number : Option String := none
  case_id : Option Nat := none
  is_draft : Bool := false
  missing_fields : List String := []
  message : Option String := none
  clarification_matches : List MatchInfo := []
  existing_id : Option Nat := none
  existing_case_name : Option String := none
  existing_case_number : Option String := none
  hearing_number : Option Nat := none
  outcome : Option String := none
  next_date : Option String := none
  actions : List String := []
  calendar_event : Bool := false
  email_sent : Bool := false
  email_to : Option String := none
  error : Option String := none
deriving DecidableEq, Repr

/-- The `CaseAlreadyExistsError` message (JS interpolation renders a missing
field as `undefined`). -/
def alreadyExistsMessage (existing : CaseRecord) : String :=
  "A similar case already exists: \"" ++ existing.case_name.getD "undefined" ++ "\" (" ++
    existing.case_number.getD "undefined" ++
    "). Please update the existing case instead of creating a new one."

/-- `WorkflowOrchestrator.createDraftFromUnknown`: synthesize the
`"Unknown Case: {lookupKey}"` draft; the inner `createCase` can still raise
`CaseAlreadyExistsError`, which propagates to the caller. -/
def createDraftFromUnknown (st : Store) (user : UserCtx) (year k : Nat)
    (caseData : CasePayload) (lookupKey : String) :
    Except CreateError (CaseResult × Store) :=
  let draftData : CasePayload :=
    { case_name := some ("Unknown Case: " ++ lookupKey),
      case_summary := jsOr caseData.outcome caseData.raw_notes,
      missing_fields := ["case_verification", "client_name", "client_email"],
      assign_to_junior := false }
  match createCase st draftData user year k with
  | .error e => .error e
  | .ok (created, st1) =>
    let st2 := st1.addHistoryNote created.id
      ("⚠️ This case was auto-created because \"" ++ lookupKey ++
        "\" was not found. Please verify and update case details.")
    .ok ({ status := "CREATED_AS_DRAFT", case_id := some created.id,
           case_name := some ("Unknown Case: " ++ lookupKey),
           case_number := some created.case_number, is_draft := true,
           message := some ("Case \"" ++ lookupKey ++ "\" not found. Created draft for review."),
           actions := ["Created draft case for unknown reference"] }, st2)

/-- The continuation of `handleExistingCase` once a unique case has been
located: hearing record, sparse patch (with the unconditional junior
assignment email), status actions, calendar, documents, and the client
hearing report with the welcome flag. -/
def continueUpdate (st : Store) (user : UserCtx) (today : String)
    (caseData : CasePayload) (existingCase : CaseRecord) :
    CaseResult × Store × List Effect :=
  let hearingStep : Option Nat × Store :=
    if truthy caseData.outcome then
      let hd : HearingData :=
        { date := some today,
          description := jsOr caseData.raw_notes caseData.outcome,
          outcome := caseData.outcome,
          next_steps := some (if truthy caseData.next_hearing_date
            then "Next hearing: " ++ caseData.next_hearing_date.getD "" else ""),
          documents := some (String.intercalate ", " caseData.documents_needed),
          court := some "",
          next_hearing_date := caseData.next_hearing_date }
      let r := st.addHearing existingCase.id hd today
      (some r.2, r.1)
    else (none, st)
  let hearingNumber? := hearingStep.1
  let st1 := hearingStep.2
  let updates0 : UpdatePatch :=
    { status := if truthy caseData.status then some (mapStatus (caseData.status.getD "")) else none,
      next_hearing_date := if truthy caseData.next_hearing_date then caseData.next_hearing_date else none,
      documents_needed := if caseData.documents_needed.length > 0 then caseData.documents_needed else [],
      client_email := if truthy caseData.client_email then caseData.client_email else none,
      client_name := if truthy caseData.client_name then caseData.client_name else none,
      client_phone := if truthy caseData.client_phone then caseData.client_phone else none,
      case_summary := if truthy caseData.case_summary then caseData.case_summary else none,
      latest_outcome := if truthy caseData.outcome then caseData.outcome else none,
      case_number := if truthy caseData.case_number && !(truthy existingCase.case_number)
        then caseData.case_number else none }
  let juniorStep : UpdatePatch × List Effect :=
    if caseData.assign_to_junior then
      ({ updates0 with
          junior_assigned := true
          junior_name := jsOr (jsOr caseData.junior_name user.junior_name) none
          junior_email := jsOr (jsOr caseData.junior_email user.junior_email) none },
       [Effect.juniorAssignmentEmail])
    else (updates0, [])
  let updates := juniorStep.1
  let effJunior := juniorStep.2
  let patchNonEmpty :=
    updates.status.isSome || updates.next_hearing_date.isSome ||
    decide (updates.documents_needed.length > 0) || updates.client_email.isSome ||
    updates.client_name.isSome || updates.client_phone.isSome ||
    updates.case_summary.isSome || updates.latest_outcome.isSome ||
    updates.case_number.isSome || updates.junior_assigned
  let st2 := if patchNonEmpty then st1.updateCase existingCase.id updates else st1
  let statusStep : Store × List String × List Effect :=
    if caseData.status == some "FINALIZED" then
      let stc := st2.closeCase existingCase.id
      if truthy existingCase.client_email then
        (stc, ["Case closed/archived", "Client notified of case conclusion"], [Effect.clientUpdateEmail])
      else (stc, ["Case closed/archived"], [])
    else (st2, [], [])
  let st3 := statusStep.1
  let calStep : List String × List Effect × Bool :=
    if truthy caseData.next_hearing_date then
      (["Calendar reminder set"], [Effect.calendarHearingEvent (caseData.next_hearing_date.getD "")], true)
    else ([], [], false)
  let docStep : List String × List Effect :=
    if caseData.documents_needed.length > 0 then
      (["Document request processed"],
       handleDocumentRequest (recordDocSource existingCase) (payloadDocSource caseData)
         caseData.documents_needed user)
    else ([], [])
  let newHearingCount := existingCase.hearing_count + 1
  let caseEmail := jsOr existingCase.client_email caseData.client_email
  let resolvedEmail := resolveClientEmail user caseEmail
  let emailStep : List String × List Effect × Bool × Option String × Store :=
    if truthy caseData.outcome && resolvedEmail.isSome then
      let e := resolvedEmail.getD ""
      let stw :=
        if newHearingCount == 1 && !existingCase.client_welcome_sent then
          st3.updateCase existingCase.id { client_welcome_sent := some true }
        else st3
      (["Hearing #" ++ Nat.repr newHearingCount ++ " report sent to client"],
       [Effect.clientHearingReport newHearingCount e], true, some e, stw)
    else ([], [], false, none, st3)
  ({ status := "UPDATED", case_id := some existingCase.id,
     case_name := existingCase.case_name, case_number := existingCase.case_number,
     outcome := caseData.outcome, hearing_number := hearingNumber?,
     next_date := caseData.next_hearing_date,
     actions := statusStep.2.1 ++ calStep.1 ++ docStep.1 ++ emailStep.1,
     calendar_event := calStep.2.2, email_sent := emailStep.2.2.1,
     email_to := emailStep.2.2.2.1 },
   emailStep.2.2.2.2,
   effJunior ++ statusStep.2.2 ++ calStep.2.1 ++ docStep.2 ++ emailStep.2.1)

/-- The draft-or-error step shared by the two not-found paths of
`handleExistingCase` (the outer catch converts a propagated
`CaseAlreadyExistsError` — or any other failure — into an ERROR result). -/
def draftFromUnknownStep (st : Store) (user : UserCtx) (year k : Nat)
    (caseData : CasePayload) (lookupKey : String) :
    CaseResult × Store × List Effect :=
  match createDraftFromUnknown st user year k caseData lookupKey with
  | .ok (res, st') => (res, st', [])
  | .error (.alreadyExists existing) =>
    ({ status := "ERROR", case_name := some lookupKey,
       error := some (alreadyExistsMessage existing) }, st, [])

/-- `WorkflowOrchestrator.handleExistingCase` (Branch A). -/
def handleExistingCase (st : Store) (user : UserCtx) (today : String) (year k : Nat)
    (caseData : CasePayload) : CaseResult × Store × List Effect :=
  match jsOr caseData.lookup_key caseData.case_name with
  | none =>
    ({ status := "ERROR", case_name := none,
       error := some "Cannot read properties of undefined" }, st, [])
  | some lookupKey =>
    match findCase st lookupKey with
    | .notFound _ => draftFromUnknownStep st user year k caseData lookupKey
    | .needsClarification ms =>
      let realCases := ms.filter (fun m => !(startsWithS (m.case_name.getD "") "Unknown Case"))
      match realCases with
      | [m] =>
        match st.getCaseById m.id with
        | some existingCase => continueUpdate st user today caseData existingCase
        | none =>
          ({ status := "ERROR", case_name := some lookupKey,
             error := some ("Case not found: " ++ Nat.repr m.id) }, st, [])
      | [] => draftFromUnknownStep st user year k caseData lookupKey
      | _ :: _ :: _ =>
        ({ status := "CLARIFICATION_NEEDED", case_name := some lookupKey,
           message := some ("Found " ++ Nat.repr realCases.length ++ " cases matching \"" ++
             lookupKey ++ "\". Please specify case number."),
           clarification_matches := realCases }, st, [])
    | .found existingCase => continueUpdate st user today caseData existingCase

/-- The required-field validation of `handleNewCase` (step 1). -/
def computeMissingFields (user : UserCtx) (p : CasePayload) : List String :=
  (if !(truthy p.case_name) then ["case_name"] else []) ++
  (if !(truthy p.client_name) then ["client_name"] else []) ++
  (if !(truthy p.client_email) then ["client_email"] else []) ++
  (if user.role == "SENIOR" && p.assign_to_junior &&
      !(truthy p.junior_email) && !(truthy user.junior_email)
   then ["junior_email"] else [])

/-- `[...new Set(l)]`: deduplicate keeping first occurrences. -/
def dedupStringsAux : List String → List String → List String
  | [], _ => []
  | x :: xs, seen =>
    if x ∈ seen then dedupStringsAux xs seen else x :: dedupStringsAux xs (x :: seen)

def dedupStrings (l : List String) : List String :=
  dedupStringsAux l []

/-- `WorkflowOrchestrator.handleNewCase` (Branch B); `gen` is the AI
summary collaborator (`generateCaseSummary`). -/
def handleNewCase (st : Store) (user : UserCtx) (gen : CasePayload → String)
    (year k : Nat) (caseData : CasePayload) : CaseResult × Store × List Effect :=
  let allMissingFields := dedupStrings (computeMissingFields user caseData ++ caseData.missing_fields)
  let p1 := { caseData with missing_fields := allMissingFields }
  let p2 :=
    if !(truthy p1.case_summary) && truthy p1.raw_notes then
      { p1 with case_summary := some (gen p1) }
    else p1
  match createCase st p2 user year k with
  | .error (.alreadyExists existing) =>
    ({ status := "DUPLICATE_CASE", case_name := caseData.case_name,
       existing_id := some existing.id, existing_case_name := existing.case_name,
       existing_case_number := existing.case_number,
       message := some (alreadyExistsMessage existing) }, st, [])
  | .ok (created, st1) =>
    let base : CaseResult :=
      { status := if created.is_draft then "CREATED_AS_DRAFT" else "CREATED",
        case_id := some created.id, case_name := caseData.case_name,
        case_number := some created.case_number, is_draft := created.is_draft,
        missing_fields := allMissingFields }
    if created.is_draft then
      ({ base with
         message := some ("Case created as draft. Missing: " ++
           String.intercalate ", " allMissingFields ++ ". Please provide these details."),
         actions := ["Created as draft - awaiting complete information"] }, st1, [])
    else
      let juniorStep : List Effect × List String :=
        if user.role == "SENIOR" && caseData.assign_to_junior then
          ([Effect.juniorAssignmentEmail], ["Junior notified of assignment"])
        else if user.role == "SENIOR" && user.auto_assign_to_junior then
          ([Effect.juniorAssignmentEmail], ["Auto-assigned to junior"])
        else ([], [])
      let docStep : List Effect × List String :=
        if caseData.documents_needed.length > 0 then
          (handleDocumentRequest (payloadDocSource caseData) (payloadDocSource caseData)
             caseData.documents_needed user, ["Document collection requested"])
        else ([], [])
      let calStep : List Effect × List String × Bool :=
        if truthy caseData.next_hearing_date then
          ([Effect.calendarHearingEvent (caseData.next_hearing_date.getD "")],
           ["First hearing calendar event created"], true)
        else ([], [], false)
      ({ base with
         actions := juniorStep.2 ++ docStep.2 ++ calStep.2.1 ++
           ["Client email held until first hearing"],
         calendar_event := calStep.2.2 },
       st1, juniorStep.1 ++ docStep.1 ++ calStep.1)

/-- `WorkflowOrchestrator.processSingleCase`: the action-type router. -/
def processSingleCase (st : Store) (user : UserCtx) (gen : CasePayload → String)
    (today : String) (year k : Nat) (caseData : CasePayload) :
    CaseResult × Store × List Effect :=
  if caseData.action_type == some "UPDATE_EXISTING" then
    handleExistingCase st user today year k caseData
  else if caseData.action_type == some "CREATE_NEW" then
    handleNewCase st user gen year k caseData
  else if caseData.action_type == some "CLARIFICATION_NEEDED" then
    ({ status := "CLARIFICATION_NEEDED",
       case_name := jsOr caseData.lookup_key caseData.case_name,
       message := some "Could not determine if this is a new or existing case" }, st, [])
  else
    ({ status := "UNKNOWN_ACTION", case_name := caseData.case_name }, st, [])

section ModelChecks

/-- First of the two Arun Mehta cases of Scenario C. -/
def arunCase1 : CaseRecord :=
  { id := 1, case_name := some "Arun Mehta Contract Breach",
    case_number := some "CASE-2024-AB12C", status := some "Active",
    client_name := some "Arun Mehta", client_email := some "arun@gmail.com" }

/-- Second of the two Arun Mehta cases of Scenario C. -/
def arunCase2 : CaseRecord :=
  { id := 2, case_name := some "Arun Mehta Property Case",
    case_number := some "CASE-2024-XY34Z", status := some "Active",
    client_name := some "Arun Mehta", client_email := some "arun@gmail.com" }

/-- Store fixture: the two Arun Mehta cases of Scenario C. -/
def arunStore : Store :=
  { cases := [arunCase1, arunCase2], nextId := 3 }

example : searchCases arunStore "Arun Mehta" = [arunCase1, arunCase2] := by decide

example : findCase arunStore "Arun Mehta" = .found arunCase1 := by decide

/-- Store fixture: a lone Priya Patel case, probed with "Priya Sharma". -/
def priyaStore : Store :=
  { cases :=
      [{ id := 1, case_name := some "Priya Patel Property",
         case_number := some "C7", status := some "Active",
         client_name := some "Priya Patel" }],
    nextId := 2 }

example : findCase priyaStore "Priya Sharma" = .notFound "Priya Sharma" := by decide

/-- Store fixture: a case literally named "Unknown", which the duplicate
detector matches against any synthesized "Unknown Case: ..." draft name. -/
def unknownStore : Store :=
  { cases :=
      [{ id := 1, case_name := some "Unknown", case_number := some "C1",
         status := some "Active", client_name := some "Bob" }],
    nextId := 2 }

example : findCase unknownStore "Zed" = .notFound "Zed" := by decide

example :
    checkDuplicateCase unknownStore none (some "Unknown Case: Zed") =
      some (unknownStore.cases.get! 0) := by decide

/-- A demo actor: a senior lawyer with a real personal address. -/
def demoUser : UserCtx :=
  { id := 7, role := "SENIOR", name := "Lawyer", email := some "lawyer@firm.com" }

/-- Update payload whose lookup key matches nothing in `unknownStore`. -/
def pZed : CasePayload :=
  { action_type := some "UPDATE_EXISTING", lookup_key := some "Zed",
    outcome := some "Bail granted" }

example :
    (handleExistingCase unknownStore demoUser "2025-06-01" 2025 0 pZed).1.status =
      "ERROR" := by decide

/-- Store fixture for the update branch: one case without a case number. -/
def sharmaCase : CaseRecord :=
  { id := 1, case_name := some "Sharma Estate", case_number := none,
    status := some "Active", client_name := some "Sharma",
    client_email := some "sharma.client@gmail.com" }

def sharmaStore : Store := { cases := [sharmaCase], nextId := 2 }

/-- Update payload carrying a case number for a case that lacks one. -/
def pNum : CasePayload :=
  { action_type := some "UPDATE_EXISTING", lookup_key := some "Sharma Estate",
    case_number := some "CASE-2025-ZZZZZ" }

example :
    (handleExistingCase sharmaStore demoUser "2025-06-01" 2025 0 pNum).1.status =
      "UPDATED" := by decide

example :
    (handleExistingCase sharmaStore demoUser "2025-06-01" 2025 0 pNum).2.1 =
      sharmaStore := by decide

/-- Create payload with all three required fields plus an extractor-flagged
missing field. -/
def pCourtDate : CasePayload :=
  { action_type := some "CREATE_NEW", case_name := some "John Smith Property Dispute",
    client_name := some "John Smith", client_email := some "john.smith@gmail.com",
    missing_fields := ["court_date"] }

example :
    (handleNewCase { } demoUser (fun _ => "s") 2025 1 pCourtDate).1.status =
      "CREATED_AS_DRAFT" := by decide

/-- Store fixture: an existing case for the two-character client "Al". -/
def alCase : CaseRecord :=
  { id := 1, case_name := some "Al Estate", case_number := some "CASE-2024-QQ11Q",
    status := some "Active", client_name := some "Al",
    client_email := some "alfred.estate@gmail.com" }

def alStore : Store := { cases := [alCase], nextId := 2 }

/-- Create payload whose client name equals the existing client "Al". -/
def pAl : CasePayload :=
  { action_type := some "CREATE_NEW", case_name := some "Al Estate Dispute",
    client_name := some "Al", client_email := some "alfred.estate@gmail.com" }

example : searchCases alStore "Al" = [alCase] := by decide
example :
    (handleNewCase alStore demoUser (fun _ => "s") 2025 1 pAl).1.status =
      "CREATED" := by decide
example :
    (handleNewCase alStore demoUser (fun _ => "s") 2025 1 pAl).2.1.cases.length =
      2 := by decide

/-- Store fixture: an active case for client "Priya Sharma". -/
def priyaDupCase : CaseRecord :=
  { id := 1, case_name := some "Priya Sharma Divorce", case_number := some "CASE-2024-PP22P",
    status := some "Active", client_name := some "Priya Sharma",
    client_email := some "priya.sharma@gmail.com" }

def priyaDupStore : Store := { cases := [priyaDupCase], nextId := 2 }

/-- Create payload missing `client_email` but colliding with the existing
"Priya Sharma" case. -/
def pPriyaNew : CasePayload :=
  { action_type := some "CREATE_NEW", case_name := some "Priya Sharma Property",
    client_name := some "Priya Sharma" }

example :
    (handleNewCase priyaDupStore demoUser (fun _ => "s") 2025 1 pPriyaNew).1.status =
      "DUPLICATE_CASE" := by decide
example :
    (handleNewCase priyaDupStore demoUser (fun _ => "s") 2025 1 pPriyaNew).2.1 =
      priyaDupStore := by decide

/-- Scenario A's create payload (no case number of its own). -/
def pJohn : CasePayload :=
  { action_type := some "CREATE_NEW", case_name := some "John Smith Property Dispute",
    client_name := some "John Smith", client_email := some "john@example.com" }

/-- The object returned by Scenario A's creation at outcome `k = 2 ^ 52`. -/
def johnCreated : CreatedInfo :=
  { id := 1, case_number := "CASE-2025-I",
    case_name := some "John Smith Property Dispute", status := "Active",
    is_draft := false, missing_fields := [] }

/-- The store after Scenario A's creation at outcome `k = 2 ^ 52`. -/
def johnStoreAfter : Store :=
  { cases :=
      [{ id := 1, case_name := some "John Smith Property Dispute",
         case_number := some "CASE-2025-I", status := some "Active",
         client_name := some "John Smith", client_email := some "john@example.com",
         assigned_to := some "Lawyer", created_by := some "Lawyer" }],
    history := [(1, "Case created by Lawyer")], nextId := 2 }

end ModelChecks

/-! ## Claim theorems -/

/-- **C10**: the two `resolveClientEmail` method definitions on the
orchestrator class (the second shadowing the first) are extensionally equal:
for every candidate email and every user context they resolve to the same
address, so the duplicated definition does not alter behavior. -/
theorem resolveClientEmail_defs_extensionally_equal :
    ∀ (user : UserCtx) (email : Option String),
      resolveClientEmailFirst user email = resolveClientEmail user email := by
  intro user email
  rfl

/-- **C8**: with a non-null (truthy) actor email, `resolveClientEmail`
returns the actor's own email for an absent candidate and for any candidate
classified as non-real by `isRealEmail`, and returns a real candidate
unchanged. -/
theorem resolveClientEmail_policy (user : UserCtx) (em e : String)
    (hem : user.email = some em) (hne : em ≠ "") :
    resolveClientEmail user none = some em ∧
    (isRealEmail e = false → resolveClientEmail user (some e) = some em) ∧
    (isRealEmail e = true → resolveClientEmail user (some e) = some e) := by
  have hdef : jsOr user.email user.demo_user_email = some em := by
    simp [jsOr, truthy, hem, hne]
  refine ⟨?_, ?_, ?_⟩
  · simp [resolveClientEmail, hdef, truthy, hne]
  · intro hreal
    by_cases he : e = ""
    · subst he
      simp [resolveClientEmail, hdef, truthy, hne]
    · simp [resolveClientEmail, hdef, truthy, hne, hreal, he]
  · intro hreal
    have he : e ≠ "" := by
      rintro rfl
      exact absurd hreal (by decide)
    simp [resolveClientEmail, hdef, truthy, hne, hreal, he]

/-- **C8 witness**: Scenario E — `resolveClientEmail(null, ctx)` and
`resolveClientEmail("test@example.com", ctx)` both yield
`"lawyer@firm.com"`. -/
theorem resolveClientEmail_policy_witness :
    (resolveClientEmail demoUser none = some "lawyer@firm.com" ∧
      (isRealEmail "test@example.com" = false →
        resolveClientEmail demoUser (some "test@example.com") = some "lawyer@firm.com") ∧
      (isRealEmail "test@example.com" = true →
        resolveClientEmail demoUser (some "test@example.com") = some "test@example.com")) ∧
    resolveClientEmail demoUser (some "test@example.com") = some "lawyer@firm.com" :=
  ⟨resolveClientEmail_policy demoUser "lawyer@firm.com" "test@example.com" (by decide) (by decide),
   by decide⟩

/-- **C7**: on the concrete store whose only case lacks a case number and an
update payload carrying `case_number = "CASE-2025-ZZZZZ"`, the update branch
reports UPDATED but the store is left unchanged — the case number in the
patch is never persisted, because `updateCase` has no property handler for
`case_number` (`applyPatchRecord` on a pure case-number patch is the
identity). -/
theorem updateBranch_drops_case_number :
    applyPatchRecord { case_number := some "CASE-2025-ZZZZZ" } sharmaCase = sharmaCase ∧
    (handleExistingCase sharmaStore demoUser "2025-06-01" 2025 0 pNum).1.status = "UPDATED" ∧
    (handleExistingCase sharmaStore demoUser "2025-06-01" 2025 0 pNum).2.1 = sharmaStore ∧
    Store.getCaseById (handleExistingCase sharmaStore demoUser "2025-06-01" 2025 0 pNum).2.1 1 =
      some sharmaCase ∧
    sharmaCase.case_number = none := by decide

/-- Every digit of the modelled `Math.random` base-36 expansion is < 36. -/
theorem mem_randFracDigits_lt (k : Nat) : ∀ d ∈ randFracDigits k, d < 36 := by
  intro d hd
  simp only [randFracDigits, List.mem_reverse] at hd
  have hd' := (List.dropWhile_sublist _).subset hd
  rw [List.mem_reverse] at hd'
  obtain ⟨i, _, rfl⟩ := List.mem_map.1 hd'
  exact Nat.mod_lt _ (by norm_num)

/-- The random case-number suffix has at most five characters, all of them
uppercase alphanumerics. -/
theorem mathRandomBase36Suffix_spec (k : Nat) :
    (mathRandomBase36Suffix k).data.length ≤ 5 ∧
    (mathRandomBase36Suffix k).data.all isUpperAlnum = true := by
  constructor
  · simp only [mathRandomBase36Suffix, List.length_map, List.length_take]
    exact min_le_left _ _
  · rw [List.all_eq_true]
    intro c hc
    simp only [mathRandomBase36Suffix] at hc
    obtain ⟨d, hd, rfl⟩ := List.mem_map.1 hc
    have hlt : d < 36 := mem_randFracDigits_lt k d (List.take_subset _ _ hd)
    have hball : ∀ d, d < 36 → isUpperAlnum ((base36Char d).toUpper) = true := by decide
    exact hball d hlt

/-- A generated case number always matches the relaxed pattern
`CASE-\d{4}-[A-Z0-9]{0,5}` when the year prints with four decimal digits. -/
theorem generateCaseNumber_upTo5 (year k : Nat)
    (hylen : (Nat.repr year).data.length = 4)
    (hydig : (Nat.repr year).data.all Char.isDigit = true) :
    matchesCaseNumberPatternUpTo5 (generateCaseNumber year k) = true := by
  obtain ⟨hslen, hsall⟩ := mathRandomBase36Suffix_spec k
  set y := (Nat.repr year).data with hy
  set s := (mathRandomBase36Suffix k).data with hs
  have hdata : (generateCaseNumber year k).data = "CASE-".data ++ y ++ ['-'] ++ s := by
    simp [generateCaseNumber, String.data_append, hy, hs]
  have hc5 : ("CASE-".data).length = 5 := by decide
  have h9 : ("CASE-".data ++ y).length = 9 := by
    simp [List.length_append, hc5, hylen]
  have h10 : (("CASE-".data ++ y) ++ ['-']).length = 10 := by
    simp [List.length_append, hc5, hylen]
  unfold matchesCaseNumberPatternUpTo5
  rw [hdata]
  simp only [Bool.and_eq_true]
  refine ⟨⟨⟨⟨?_, ?_⟩, ?_⟩, ?_⟩, ?_⟩
  · -- length bounds
    rw [decide_eq_true_iff]
    simp only [List.length_append, hc5, hylen, List.length_singleton]
    omega
  · -- "CASE-" prefix
    rw [List.isPrefixOf_iff_prefix]
    have : "CASE-".data ++ y ++ ['-'] ++ s = "CASE-".data ++ (y ++ ['-'] ++ s) := by
      simp [List.append_assoc]
    rw [this]
    exact List.prefix_append _ _
  · -- four year digits
    have hdrop : ("CASE-".data ++ y ++ ['-'] ++ s).drop 5 = y ++ ['-'] ++ s := by
      have : "CASE-".data ++ y ++ ['-'] ++ s = "CASE-".data ++ (y ++ ['-'] ++ s) := by
        simp [List.append_assoc]
      rw [this, ← hc5, List.drop_left]
    rw [hdrop]
    have htake : (y ++ ['-'] ++ s).take 4 = y := by
      have : y ++ ['-'] ++ s = y ++ (['-'] ++ s) := by simp [List.append_assoc]
      rw [this, ← hylen, List.take_left]
    rw [htake]
    exact hydig
  · -- the second hyphen
    rw [decide_eq_true_iff]
    have hdrop : ("CASE-".data ++ y ++ ['-'] ++ s).drop 9 = ['-'] ++ s := by
      have : "CASE-".data ++ y ++ ['-'] ++ s = ("CASE-".data ++ y) ++ (['-'] ++ s) := by
        simp [List.append_assoc]
      rw [this, ← h9, List.drop_left]
    rw [hdrop]
    rfl
  · -- suffix characters
    have hdrop : ("CASE-".data ++ y ++ ['-'] ++ s).drop 10 = s := by
      have : "CASE-".data ++ y ++ ['-'] ++ s = (("CASE-".data ++ y) ++ ['-']) ++ s := by
        simp [List.append_assoc]
      rw [this, ← h10, List.drop_left]
    rw [hdrop]
    exact hsall

/-- **C9 counterexample**: the `Math.random` outcome `1/2 = 2^52/2^53` is a
possible generator outcome whose base-36 string is `"0.i"`, so the generated
case number is `"CASE-2025-I"` — its random part has a single character and
the claimed pattern `CASE-\d{4}-[A-Z0-9]{5}` does not match; the same number
is what `createCase` stores for Scenario A's payload. -/
theorem generateCaseNumber_pattern_counterexample :
    2 ^ 52 < 2 ^ 53 ∧
    generateCaseNumber 2025 (2 ^ 52) = "CASE-2025-I" ∧
    matchesCaseNumberPattern (generateCaseNumber 2025 (2 ^ 52)) = false ∧
    (createCase { } pJohn demoUser 2025 (2 ^ 52)).toOption.map
      (fun x => x.1.case_number) = some "CASE-2025-I" := by decide

/-- **C9 (amended)**: for every store, payload without its own case number,
user, four-decimal-digit year and every `Math.random` outcome `k / 2 ^ 53`,
a successful `createCase` returns a case number matching
`CASE-\d{4}-[A-Z0-9]{0,5}` — up to five uppercase alphanumerics, not always
exactly five. -/
theorem createCase_number_matches_relaxed_pattern
    (st : Store) (p : CasePayload) (user : UserCtx) (year k : Nat)
    (info : CreatedInfo) (st' : Store)
    (hno : truthy p.case_number = false)
    (hylen : (Nat.repr year).data.length = 4)
    (hydig : (Nat.repr year).data.all Char.isDigit = true)
    (hok : createCase st p user year k = .ok (info, st')) :
    matchesCaseNumberPatternUpTo5 info.case_number = true := by
  cases hdup : checkDuplicateCase st p.client_name p.case_name with
  | some existing =>
    rw [createCase, hdup] at hok
    exact absurd hok (by simp)
  | none =>
    rw [createCase, hdup] at hok
    simp only [Except.ok.injEq, Prod.mk.injEq] at hok
    have hnum : info.case_number = generateCaseNumber year k := by
      rw [← hok.1]
      simp [jsOr, hno]
    rw [hnum]
    exact generateCaseNumber_upTo5 year k hylen hydig

/-- **C3**: when the search returns exactly one candidate that is not an
exact case-number match, and the lookup key has at least two significant
words of which only a strict subset textually match the candidate's
case-name/client-name words, `findCase` reports not-found instead of
resolving to the single candidate. -/
theorem findCase_single_strict_subset_notFound
    (st : Store) (key : String) (c : CaseRecord)
    (hs : searchCases st key = [c])
    (hnum : (strIncludes (upperS key) (upperS (c.case_number.getD "")) &&
        decide (lenS (upperS (c.case_number.getD "")) > 5)) = false)
    (hw : 2 ≤ (significantWords (trimS (lowerS key))).length)
    (hsub : (wordsMatching (significantWords (trimS (lowerS key)))
          (jsSplitWs (lowerS (c.case_name.getD "")) ++
            jsSplitWs (lowerS (c.client_name.getD "")))).length <
        (significantWords (trimS (lowerS key))).length) :
    findCase st key = .notFound key := by
  unfold findCase
  rw [hs]
  simp [hnum, hw, hsub, Nat.ne_of_lt hsub]

/-- **C3 witness**: lookup "Priya Sharma" against a lone "Priya Patel
Property" candidate resolves to not-found. -/
theorem findCase_single_strict_subset_notFound_witness :
    findCase priyaStore "Priya Sharma" = .notFound "Priya Sharma" :=
  findCase_single_strict_subset_notFound priyaStore "Priya Sharma"
    (priyaStore.cases.get! 0) (by decide) (by decide) (by decide) (by decide)

/-- **C2 counterexample**: on Scenario C's store — "Arun Mehta Contract
Breach" and "Arun Mehta Property Case", looked up with "Arun Mehta" — both
candidates score 0.95, so the top score is ≥ 0.9 and `findCase`
auto-selects the first candidate; it does not raise the clarification
carrying both that the claim asserts. -/
theorem findCase_arun_scenario_counterexample :
    findCase arunStore "Arun Mehta" = .found arunCase1 ∧
    findCase arunStore "Arun Mehta" ≠
      FindOutcome.needsClarification
        [⟨1, some "Arun Mehta Contract Breach", some "CASE-2024-AB12C"⟩,
         ⟨2, some "Arun Mehta Property Case", some "CASE-2024-XY34Z"⟩] := by decide

/-- **C2 (amended)**: with two or more search candidates, `findCase` scores
each candidate (`scoreCandidate`: 1.0 for an exact case-number substring
match longer than five characters; 0.95 when the key has at least two
significant words and all of them match candidate words; otherwise 0.7
times the matched-word ratio), sorts stably by descending score, and
returns the top candidate exactly when its score is ≥ 0.9, or is ≥ 0.7
with a gap of at least 0.2 over the second; otherwise it raises a
clarification carrying the full candidate list. -/
theorem findCase_multi_candidate_rule
    (st : Store) (key : String) (r1 r2 : CaseRecord) (rest : List CaseRecord)
    (best second : CaseRecord × Score) (others : List (CaseRecord × Score))
    (hs : searchCases st key = r1 :: r2 :: rest)
    (hsorted : sortByScoreDesc ((r1 :: r2 :: rest).map
        (fun r => (r, scoreCandidate key (significantWords (trimS (lowerS key))) r))) =
      best :: second :: others) :
    findCase st key =
      if Score.le ⟨9, 10⟩ best.2 ∨
          (Score.le ⟨7, 10⟩ best.2 ∧ Score.le ⟨1, 5⟩ (Score.sub best.2 second.2)) then
        FindOutcome.found best.1
      else
        FindOutcome.needsClarification
          ((r1 :: r2 :: rest).map (fun r => ⟨r.id, r.case_name, r.case_number⟩)) := by
  unfold findCase
  rw [hs]
  simp only [hsorted]

/-- **C2 witness**: the rule applied to Scenario C's store — both scores are
0.95, the top score passes the ≥ 0.9 test, and the first-listed case is
auto-selected. -/
theorem findCase_multi_candidate_rule_witness :
    findCase arunStore "Arun Mehta" =
      if Score.le ⟨9, 10⟩ (⟨95, 100⟩ : Score) ∨
          (Score.le ⟨7, 10⟩ (⟨95, 100⟩ : Score) ∧
            Score.le ⟨1, 5⟩ (Score.sub ⟨95, 100⟩ ⟨95, 100⟩)) then
        FindOutcome.found arunCase1
      else
        FindOutcome.needsClarification
          [⟨1, some "Arun Mehta Contract Breach", some "CASE-2024-AB12C"⟩,
           ⟨2, some "Arun Mehta Property Case", some "CASE-2024-XY34Z"⟩] :=
  findCase_multi_candidate_rule arunStore "Arun Mehta" arunCase1 arunCase2 []
    (arunCase1, ⟨95, 100⟩) (arunCase2, ⟨95, 100⟩) [] (by decide) (by decide)

theorem dedupStrings_nil : dedupStrings [] = [] := rfl

theorem mem_dedupStringsAux (l : List String) :
    ∀ (seen : List String) (x : String),
      x ∈ dedupStringsAux l seen ↔ x ∈ l ∧ x ∉ seen := by
  induction l with
  | nil => simp [dedupStringsAux]
  | cons a as ih =>
    intro seen x
    by_cases h : a ∈ seen
    · simp only [dedupStringsAux, if_pos h, ih, List.mem_cons]
      constructor
      · rintro ⟨hx, hn⟩
        exact ⟨Or.inr hx, hn⟩
      · rintro ⟨hax | hx, hn⟩
        · exact absurd (hax ▸ h) hn
        · exact ⟨hx, hn⟩
    · simp only [dedupStringsAux, if_neg h, List.mem_cons, ih]
      constructor
      · rintro (rfl | ⟨hx, hn⟩)
        · exact ⟨Or.inl rfl, h⟩
        · exact ⟨Or.inr hx, fun hs => hn (Or.inr hs)⟩
      · rintro ⟨rfl | hx, hn⟩
        · exact Or.inl rfl
        · by_cases hxa : x = a
          · exact Or.inl hxa
          · exact Or.inr ⟨hx, fun hor => hor.elim hxa hn⟩

theorem mem_dedupStrings (l : List String) (x : String) :
    x ∈ dedupStrings l ↔ x ∈ l := by
  simp [dedupStrings, mem_dedupStringsAux]

/-- **C4 counterexample**: a create payload carrying all three required
fields but also an extractor-flagged missing field (`court_date`) is
persisted as a DRAFT and reported CREATED_AS_DRAFT, not CREATED. -/
theorem handleNewCase_complete_payload_draft_counterexample :
    truthy pCourtDate.case_name = true ∧ truthy pCourtDate.client_name = true ∧
    truthy pCourtDate.client_email = true ∧
    checkDuplicateCase ({ } : Store) pCourtDate.client_name pCourtDate.case_name = none ∧
    (handleNewCase { } demoUser (fun _ => "s") 2025 1 pCourtDate).1.status =
      "CREATED_AS_DRAFT" ∧
    (handleNewCase { } demoUser (fun _ => "s") 2025 1 pCourtDate).2.1.cases.map
      CaseRecord.status = [some "Draft"] := by decide

/-- **C4 (amended)**: a create payload with the three required fields, no
extractor-flagged missing fields, no senior junior-assignment request
lacking a junior email, and no detected duplicate, is persisted ACTIVE and
reported CREATED. -/
theorem handleNewCase_complete_payload_active
    (st : Store) (user : UserCtx) (gen : CasePayload → String) (year k : Nat)
    (p : CasePayload)
    (h1 : truthy p.case_name = true) (h2 : truthy p.client_name = true)
    (h3 : truthy p.client_email = true)
    (hj : (user.role == "SENIOR" && p.assign_to_junior &&
      !(truthy p.junior_email) && !(truthy user.junior_email)) = false)
    (hm : p.missing_fields = [])
    (hd : checkDuplicateCase st p.client_name p.case_name = none) :
    (handleNewCase st user gen year k p).1.status = "CREATED" ∧
    (handleNewCase st user gen year k p).1.is_draft = false ∧
    ∃ r, (handleNewCase st user gen year k p).2.1.cases = st.cases ++ [r] ∧
      r.status = some "Active" := by
  have hmf : computeMissingFields user p = [] := by
    simp [computeMissingFields, h1, h2, h3, hj]
  unfold handleNewCase
  simp only [hmf, hm, List.append_nil, dedupStrings_nil]
  by_cases hsum : (!(truthy p.case_summary) && truthy p.raw_notes) = true
  · rw [if_pos hsum]
    simp only [createCase, hd]
    simp
    exact ⟨_, rfl, rfl⟩
  · rw [if_neg hsum]
    simp only [createCase, hd]
    simp
    exact ⟨_, rfl, rfl⟩

/-- **C4 witness**: Scenario A's payload against an empty store is created
ACTIVE. -/
theorem handleNewCase_complete_payload_active_witness :
    (handleNewCase { } demoUser (fun _ => "s") 2025 1 pJohn).1.status = "CREATED" ∧
    (handleNewCase { } demoUser (fun _ => "s") 2025 1 pJohn).1.is_draft = false ∧
    ∃ r, (handleNewCase { } demoUser (fun _ => "s") 2025 1 pJohn).2.1.cases =
        ({ } : Store).cases ++ [r] ∧ r.status = some "Active" :=
  handleNewCase_complete_payload_active { } demoUser (fun _ => "s") 2025 1 pJohn
    (by decide) (by decide) (by decide) (by decide) (by decide) (by decide)

/-- **C6 counterexample**: a create payload missing `client_email` whose
client name collides with an existing case yields DUPLICATE_CASE — no draft
is persisted and the missing field is not reported in a draft result. -/
theorem handleNewCase_missing_field_duplicate_counterexample :
    truthy pPriyaNew.client_email = false ∧
    (handleNewCase priyaDupStore demoUser (fun _ => "s") 2025 1 pPriyaNew).1.status =
      "DUPLICATE_CASE" ∧
    (handleNewCase priyaDupStore demoUser (fun _ => "s") 2025 1 pPriyaNew).1.status ≠
      "CREATED_AS_DRAFT" ∧
    (handleNewCase priyaDupStore demoUser (fun _ => "s") 2025 1 pPriyaNew).2.1 =
      priyaDupStore := by decide

/-- **C6 (amended)**: a create payload missing a required field, provided no
duplicate is detected, is persisted as a DRAFT with each absent required
field named in the result's missing-fields list, and the create branch makes
no notification or calendar call. -/
theorem handleNewCase_missing_field_draft
    (st : Store) (user : UserCtx) (gen : CasePayload → String) (year k : Nat)
    (p : CasePayload)
    (hmiss : (truthy p.case_name && truthy p.client_name && truthy p.client_email) = false)
    (hd : checkDuplicateCase st p.client_name p.case_name = none) :
    (handleNewCase st user gen year k p).1.status = "CREATED_AS_DRAFT" ∧
    (truthy p.case_name = false → "case_name" ∈ (handleNewCase st user gen year k p).1.missing_fields) ∧
    (truthy p.client_name = false → "client_name" ∈ (handleNewCase st user gen year k p).1.missing_fields) ∧
    (truthy p.client_email = false → "client_email" ∈ (handleNewCase st user gen year k p).1.missing_fields) ∧
    (handleNewCase st user gen year k p).2.2 = [] ∧
    ∃ r, (handleNewCase st user gen year k p).2.1.cases = st.cases ++ [r] ∧
      r.status = some "Draft" := by
  have h3or : truthy p.case_name = false ∨ truthy p.client_name = false ∨
      truthy p.client_email = false := by
    rcases Bool.and_eq_false_iff.mp hmiss with h | h
    · rcases Bool.and_eq_false_iff.mp h with h' | h'
      · exact Or.inl h'
      · exact Or.inr (Or.inl h')
    · exact Or.inr (Or.inr h)
  have hlen : 0 < (dedupStrings (computeMissingFields user p ++ p.missing_fields)).length := by
    rcases h3or with h | h | h
    · exact List.length_pos.mpr (List.ne_nil_of_mem ((mem_dedupStrings _ _).mpr
        (List.mem_append_left _
          (show "case_name" ∈ computeMissingFields user p by simp [computeMissingFields, h]))))
    · exact List.length_pos.mpr (List.ne_nil_of_mem ((mem_dedupStrings _ _).mpr
        (List.mem_append_left _
          (show "client_name" ∈ computeMissingFields user p by simp [computeMissingFields, h]))))
    · exact List.length_pos.mpr (List.ne_nil_of_mem ((mem_dedupStrings _ _).mpr
        (List.mem_append_left _
          (show "client_email" ∈ computeMissingFields user p by simp [computeMissingFields, h]))))
  simp only [handleNewCase]
  by_cases hsum : (!(truthy p.case_summary) && truthy p.raw_notes) = true
  · rw [if_pos hsum]
    simp only [createCase, hd]
    simp [hlen, mem_dedupStrings]
    refine ⟨fun h => ?_, fun h => ?_, fun h => ?_, _, rfl, rfl⟩ <;>
      simp [computeMissingFields, h]
  · rw [if_neg hsum]
    simp only [createCase, hd]
    simp [hlen, mem_dedupStrings]
    refine ⟨fun h => ?_, fun h => ?_, fun h => ?_, _, rfl, rfl⟩ <;>
      simp [computeMissingFields, h]

/-- **C6 witness**: a payload with only a case name, against an empty store,
is drafted with `client_name` and `client_email` flagged and no effects. -/
theorem handleNewCase_missing_field_draft_witness :
    (handleNewCase { } demoUser (fun _ => "s") 2025 1
        { action_type := some "CREATE_NEW", case_name := some "Mehta Appeal" }).1.status =
      "CREATED_AS_DRAFT" ∧
    (truthy (some "Mehta Appeal" : Option String) = false →
      "case_name" ∈ (handleNewCase { } demoUser (fun _ => "s") 2025 1
        { action_type := some "CREATE_NEW", case_name := some "Mehta Appeal" }).1.missing_fields) ∧
    (truthy (none : Option String) = false →
      "client_name" ∈ (handleNewCase { } demoUser (fun _ => "s") 2025 1
        { action_type := some "CREATE_NEW", case_name := some "Mehta Appeal" }).1.missing_fields) ∧
    (truthy (none : Option String) = false →
      "client_email" ∈ (handleNewCase { } demoUser (fun _ => "s") 2025 1
        { action_type := some "CREATE_NEW", case_name := some "Mehta Appeal" }).1.missing_fields) ∧
    (handleNewCase { } demoUser (fun _ => "s") 2025 1
        { action_type := some "CREATE_NEW", case_name := some "Mehta Appeal" }).2.2 = [] ∧
    ∃ r, (handleNewCase { } demoUser (fun _ => "s") 2025 1
        { action_type := some "CREATE_NEW", case_name := some "Mehta Appeal" }).2.1.cases =
      ({ } : Store).cases ++ [r] ∧ r.status = some "Draft" :=
  handleNewCase_missing_field_draft { } demoUser (fun _ => "s") 2025 1
    { action_type := some "CREATE_NEW", case_name := some "Mehta Appeal" }
    (by decide) (by decide)

/-- **C5 counterexample**: a create payload whose two-character client name
"Al" exactly equals the client name of an existing case returned by the
store search is still created — the duplicate detector skips search keys
shorter than three characters, so no DUPLICATE_CASE result is produced and
a new record is persisted. -/
theorem handleNewCase_duplicate_client_counterexample :
    searchCases alStore "Al" = [alCase] ∧
    trimS (lowerS (alCase.client_name.getD "")) = trimS (lowerS "Al") ∧
    startsWithS (trimS (lowerS (alCase.case_name.getD ""))) "unknown case" = false ∧
    (handleNewCase alStore demoUser (fun _ => "s") 2025 1 pAl).1.status = "CREATED" ∧
    (handleNewCase alStore demoUser (fun _ => "s") 2025 1 pAl).1.status ≠ "DUPLICATE_CASE" ∧
    (handleNewCase alStore demoUser (fun _ => "s") 2025 1 pAl).2.1.cases.length = 2 := by decide

/-- **C5 (amended)**: for a create payload whose client name has at least
three characters and trims to a non-empty key, if the store search for that
client name returns some non-placeholder case with an exactly matching
(trimmed, case-folded) client name, the workflow returns DUPLICATE_CASE
carrying the first qualifying case from the search results, and neither
persists a record nor emits any effect. -/
theorem handleNewCase_duplicate_client
    (st : Store) (user : UserCtx) (gen : CasePayload → String) (year k : Nat)
    (p : CasePayload) (cn : String) (c : CaseRecord)
    (hcn : p.client_name = some cn)
    (hlen3 : 3 ≤ lenS cn)
    (hmem : c ∈ searchCases st cn)
    (hnotunknown : startsWithS (trimS (lowerS (c.case_name.getD ""))) "unknown case" = false)
    (hne : trimS (lowerS cn) ≠ "")
    (heq : trimS (lowerS (c.client_name.getD "")) = trimS (lowerS cn)) :
    ∃ e, checkDuplicateCase st p.client_name p.case_name = some e ∧
      (handleNewCase st user gen year k p).1.status = "DUPLICATE_CASE" ∧
      (handleNewCase st user gen year k p).1.existing_id = some e.id ∧
      (handleNewCase st user gen year k p).1.existing_case_name = e.case_name ∧
      (handleNewCase st user gen year k p).1.existing_case_number = e.case_number ∧
      (handleNewCase st user gen year k p).2.1 = st ∧
      (handleNewCase st user gen year k p).2.2 = [] := by
  have hcnne : cn ≠ "" := by
    intro h
    rw [h] at hlen3
    exact absurd hlen3 (by decide)
  have hdup : checkDuplicateCase st p.client_name p.case_name =
      (searchCases st cn).find? (dupPred p.client_name p.case_name) := by
    rw [hcn]
    simp [checkDuplicateCase, truthy, hcnne, Nat.not_lt.mpr hlen3]
  have hpred : dupPred p.client_name p.case_name c = true := by
    rw [hcn]
    simp [dupPred, hnotunknown, hne, heq]
  obtain ⟨e, he⟩ :=
    Option.isSome_iff_exists.mp (List.find?_isSome.mpr ⟨c, hmem, hpred⟩)
  rw [he] at hdup
  refine ⟨e, hdup, ?_⟩
  simp only [handleNewCase]
  by_cases hsum : (!(truthy p.case_summary) && truthy p.raw_notes) = true
  · rw [if_pos hsum]
    simp only [createCase, hdup]
    simp
  · rw [if_neg hsum]
    simp only [createCase, hdup]
    simp

/-- **C5 witness**: the amended duplicate rule at the concrete "Priya
Sharma" store. -/
theorem handleNewCase_duplicate_client_witness :
    ∃ e, checkDuplicateCase priyaDupStore pPriyaNew.client_name pPriyaNew.case_name = some e ∧
      (handleNewCase priyaDupStore demoUser (fun _ => "s") 2025 1 pPriyaNew).1.status = "DUPLICATE_CASE" ∧
      (handleNewCase priyaDupStore demoUser (fun _ => "s") 2025 1 pPriyaNew).1.existing_id = some e.id ∧
      (handleNewCase priyaDupStore demoUser (fun _ => "s") 2025 1 pPriyaNew).1.existing_case_name = e.case_name ∧
      (handleNewCase priyaDupStore demoUser (fun _ => "s") 2025 1 pPriyaNew).1.existing_case_number = e.case_number ∧
      (handleNewCase priyaDupStore demoUser (fun _ => "s") 2025 1 pPriyaNew).2.1 = priyaDupStore ∧
      (handleNewCase priyaDupStore demoUser (fun _ => "s") 2025 1 pPriyaNew).2.2 = [] :=
  handleNewCase_duplicate_client priyaDupStore demoUser (fun _ => "s") 2025 1 pPriyaNew
    "Priya Sharma" priyaDupCase (by decide) (by decide) (by decide) (by decide)
    (by decide) (by decide)

/-- **C1 counterexample**: an UPDATE_EXISTING payload whose lookup key "Zed"
matches nothing, against a store holding a case literally named "Unknown":
the synthesized draft name "Unknown Case: Zed" trips the duplicate detector
(similarity 0.85 with "Unknown"), `createCase` raises
`CaseAlreadyExistsError`, and the update branch returns an ERROR result —
not the claimed CREATED_AS_DRAFT — with no draft persisted. -/
theorem handleExistingCase_unknown_error_counterexample :
    findCase unknownStore "Zed" = .notFound "Zed" ∧
    (handleExistingCase unknownStore demoUser "2025-06-01" 2025 0 pZed).1.status = "ERROR" ∧
    (handleExistingCase unknownStore demoUser "2025-06-01" 2025 0 pZed).1.status ≠
      "CREATED_AS_DRAFT" ∧
    (handleExistingCase unknownStore demoUser "2025-06-01" 2025 0 pZed).2.1 =
      unknownStore := by decide

/-- **C1 (amended)**: an UPDATE_EXISTING payload whose lookup key matches no
case, provided the duplicate detector does not flag the synthesized
`"Unknown Case: {lookupKey}"` name against an existing case, yields a
CREATED_AS_DRAFT result — never ERROR — for a newly persisted draft named
`"Unknown Case: {lookupKey}"` whose summary is the payload's
outcome-or-raw-notes and whose missing-information note lists
case_verification, client_name and client_email. -/
theorem handleExistingCase_unknown_creates_draft
    (st : Store) (user : UserCtx) (today : String) (year k : Nat)
    (p : CasePayload) (key : String)
    (hkey : jsOr p.lookup_key p.case_name = some key)
    (hnf : findCase st key = .notFound key)
    (hdup : checkDuplicateCase st none (some ("Unknown Case: " ++ key)) = none) :
    (handleExistingCase st user today year k p).1.status = "CREATED_AS_DRAFT" ∧
    (handleExistingCase st user today year k p).1.case_name =
      some ("Unknown Case: " ++ key) ∧
    (handleExistingCase st user today year k p).1.is_draft = true ∧
    (handleExistingCase st user today year k p).2.2 = [] ∧
    ∃ r, (handleExistingCase st user today year k p).2.1.cases = st.cases ++ [r] ∧
      r.case_name = some ("Unknown Case: " ++ key) ∧
      r.status = some "Draft" ∧
      (truthy (jsOr p.outcome p.raw_notes) = true →
        r.summary = jsOr p.outcome p.raw_notes) ∧
      (r.id, "⚠️ Missing information: case_verification, client_name, client_email") ∈
        (handleExistingCase st user today year k p).2.1.history := by
  have hne : truthy (some ("Unknown Case: " ++ key)) = true := by
    simp only [truthy, decide_eq_true_eq, ne_eq]
    intro h
    have := congrArg String.data h
    simp [String.data_append] at this
  simp only [handleExistingCase]
  rw [hkey]
  simp only [hnf]
  simp only [draftFromUnknownStep, createDraftFromUnknown, createCase, hdup, hne]
  simp [Store.addHistoryNote, jsOr, hne]
  refine ⟨?_, ?_⟩
  · intro h1 h2
    rw [h1] at h2
    exact absurd h2 (by decide)
  · exact Or.inr (Or.inr (Or.inl (by decide)))

/-- **C1 witness**: the amended draft path at an empty store with lookup key
"Zed". -/
theorem handleExistingCase_unknown_creates_draft_witness :
    (handleExistingCase { } demoUser "2025-06-01" 2025 0 pZed).1.status = "CREATED_AS_DRAFT" ∧
    (handleExistingCase { } demoUser "2025-06-01" 2025 0 pZed).1.case_name =
      some ("Unknown Case: " ++ "Zed") ∧
    (handleExistingCase { } demoUser "2025-06-01" 2025 0 pZed).1.is_draft = true ∧
    (handleExistingCase { } demoUser "2025-06-01" 2025 0 pZed).2.2 = [] ∧
    ∃ r, (handleExistingCase { } demoUser "2025-06-01" 2025 0 pZed).2.1.cases =
        ({ } : Store).cases ++ [r] ∧
      r.case_name = some ("Unknown Case: " ++ "Zed") ∧
      r.status = some "Draft" ∧
      (truthy (jsOr pZed.outcome pZed.raw_notes) = true →
        r.summary = jsOr pZed.outcome pZed.raw_notes) ∧
      (r.id, "⚠️ Missing information: case_verification, client_name, client_email") ∈
        (handleExistingCase { } demoUser "2025-06-01" 2025 0 pZed).2.1.history :=
  handleExistingCase_unknown_creates_draft { } demoUser "2025-06-01" 2025 0 pZed "Zed"
    (by decide) (by decide) (by decide)

/-- **C9 witness**: the amended pattern holds at the concrete Scenario A
creation with outcome `k = 2 ^ 52`. -/
theorem createCase_number_matches_relaxed_pattern_witness :
    matchesCaseNumberPatternUpTo5 johnCreated.case_number = true :=
  createCase_number_matches_relaxed_pattern { } pJohn demoUser 2025 (2 ^ 52)
    johnCreated johnStoreAfter (by decide) (by decide) (by decide) (by rfl)

end LegalCase
